import Mathlib

/-!
Verification of the result-interpretation layer of the OpenStack identity v2
token client (`openstack/identity/v2/tokens/results.go`): decoding of the
authentication response into `Token` / `ServiceCatalog`, and endpoint
resolution via `LocateEndpointURL`.

Untyped response payloads are modelled by `JVal`, a JSON-like value tree, and
the structural decode performed by `mapstructure.Decode` is embedded as total
Lean functions over `JVal`.  Collaborators of the file that live elsewhere in
the repository (`gophercloud.NormalizeURL`, `gophercloud.RFC3339Milli`,
`gophercloud.EndpointOpts`, `gophercloud.CommonResult`, `tenants.Tenant`) are
modelled from the specification, as marked on each definition.
-/

namespace Tokens

/-- A JSON-like dynamic value: the shape of the raw response payload held by
a result wrapper (a Go empty-interface value in the source). -/
inductive JVal where
  | null : JVal
  | bool (b : Bool) : JVal
  | num (n : Int) : JVal
  | str (s : String) : JVal
  | arr (items : List JVal) : JVal
  | obj (fields : List (String × JVal)) : JVal

/-- Modelled from the spec: `Tenant` is an external structure supplied by a
sibling entity whose "fields are not reinterpreted here", so it carries the
raw decoded value unchanged. -/
structure Tenant where
  raw : JVal

/-- The zero value of the external `Tenant` structure. -/
def zeroTenant : Tenant := ⟨JVal.null⟩

/-- Structure `Endpoint` from `results.go:37-46`: all fields strings, each
independently optional (absent decodes to the empty string). -/
structure Endpoint where
  TenantID : String
  PublicURL : String
  InternalURL : String
  AdminURL : String
  Region : String
  VersionID : String
  VersionInfo : String
  VersionList : String
deriving DecidableEq

/-- Structure `CatalogEntry` from `results.go:54-65`. -/
structure CatalogEntry where
  Name : String
  «Type» : String
  Endpoints : List Endpoint
deriving DecidableEq

/-- Structure `ServiceCatalog` from `results.go:68-70`: an ordered sequence
of catalog entries. -/
structure ServiceCatalog where
  Entries : List CatalogEntry
deriving DecidableEq

/-- The error values observable from this layer: upstream (captured) errors
passed through the result wrapper, structural decode errors from
`mapstructure.Decode`, timestamp parse errors from `time.Parse`, and the
three resolver errors of `LocateEndpointURL`. -/
inductive GoErr where
  | upstream (msg : String) : GoErr
  | decodeError (msg : String) : GoErr
  | timeParseError (layout : String) (value : String) : GoErr
  | endpointNotFound : GoErr
  | ambiguousEndpoint (count : Nat) (endpoints : List Endpoint) : GoErr
  | unexpectedAvailability (availability : String) : GoErr
deriving DecidableEq

/-- Modelled from the spec: `gophercloud.Availability` (the spec's
`Visibility`), a string-typed selector. -/
abbrev Availability := String

/-- Modelled from the spec: the recognized `Public` visibility selector. -/
def AvailabilityPublic : Availability := "public"

/-- Modelled from the spec: the recognized `Internal` visibility selector. -/
def AvailabilityInternal : Availability := "internal"

/-- Modelled from the spec: the recognized `Admin` visibility selector. -/
def AvailabilityAdmin : Availability := "admin"

/-- Modelled from the spec: `gophercloud.EndpointOpts`, the selection query
of §4.2 — Type (required), Name (optional), Region (optional), and the
visibility selector. -/
structure EndpointOpts where
  «Type» : String
  Name : String
  Region : String
  Availability : Availability
deriving DecidableEq

/-- Modelled from the spec: `gophercloud.NormalizeURL` (§4.3), a
deterministic, total pure string transform canonicalizing the trailing
separator; per §8 it maps the empty string to the empty string. -/
def NormalizeURL (url : String) : String :=
  match url.toList.reverse with
  | '/' :: rest => String.mk rest.reverse
  | _ => url

/-- Modelled from the spec: `gophercloud.RFC3339Milli`, the fixed
millisecond-precision ISO-8601 timestamp layout of §6
(e.g. `2024-01-02T03:04:05.678Z`), written as a Go reference layout. -/
def RFC3339Milli : String := "2006-01-02T15:04:05.000Z"

/-- A parsed absolute timestamp: the observable content of Go's `time.Time`
obtained from parsing the millisecond-precision layout. -/
structure Time where
  year : Nat
  month : Nat
  day : Nat
  hour : Nat
  minute : Nat
  second : Nat
  millisecond : Nat
deriving DecidableEq

/-- Numeric value of a decimal digit character. -/
def digitVal (c : Char) : Nat := c.toNat - 48

/-- Modelled from the spec: parsing under the fixed millisecond-precision
ISO-8601 profile. The string must match `YYYY-MM-DDTHH:MM:SS.mmmZ` exactly —
"no fallback formats, no truncation tolerance" (§4.1) — with in-range
calendar and clock components; any deviation yields `none`. -/
def parseRFC3339Milli (s : String) : Option Time :=
  match s.toList with
  | [y1, y2, y3, y4, '-', mo1, mo2, '-', d1, d2, 'T',
     h1, h2, ':', mi1, mi2, ':', se1, se2, '.', f1, f2, f3, 'Z'] =>
    if (y1.isDigit && y2.isDigit && y3.isDigit && y4.isDigit &&
        mo1.isDigit && mo2.isDigit && d1.isDigit && d2.isDigit &&
        h1.isDigit && h2.isDigit && mi1.isDigit && mi2.isDigit &&
        se1.isDigit && se2.isDigit && f1.isDigit && f2.isDigit && f3.isDigit) then
      let month := digitVal mo1 * 10 + digitVal mo2
      let day := digitVal d1 * 10 + digitVal d2
      let hour := digitVal h1 * 10 + digitVal h2
      let minute := digitVal mi1 * 10 + digitVal mi2
      let second := digitVal se1 * 10 + digitVal se2
      if 1 ≤ month && month ≤ 12 && 1 ≤ day && day ≤ 31 &&
          hour ≤ 23 && minute ≤ 59 && second ≤ 59 then
        some { year := digitVal y1 * 1000 + digitVal y2 * 100 + digitVal y3 * 10 + digitVal y4
               month := month, day := day, hour := hour, minute := minute, second := second
               millisecond := digitVal f1 * 100 + digitVal f2 * 10 + digitVal f3 }
      else
        none
    else
      none
  | _ => none

/-- Embedding of `time.Parse(gophercloud.RFC3339Milli, value)` as used at
`results.go:99`: either the parsed instant, or a parse error carrying the
layout and the offending value. -/
def timeParse (value : String) : Except GoErr Time :=
  match parseRFC3339Milli value with
  | some t => .ok t
  | none => .error (.timeParseError RFC3339Milli value)

/-- Structure `Token` from `results.go:13-27`: the token identifier, the
parsed expiry instant, and the embedded external tenant record. -/
structure Token where
  ID : String
  ExpiresAt : Time
  Tenant : Tenant

/-- Modelled from the spec: `gophercloud.CommonResult`, the Result Wrapper —
it "holds either a deferred raw response payload or a captured error";
`CreateResult` embeds it (`results.go:74-76`). -/
structure CreateResult where
  Resp : JVal
  Err : Option GoErr

/-- Structural decode of one string-typed struct field value: a string is
taken as is, a nil value leaves the zero value (empty string), any other
shape is a structural decode error. -/
def decodeStringVal (v : JVal) : Except GoErr String :=
  match v with
  | .str s => .ok s
  | .null => .ok ""
  | _ => .error (.decodeError "expected type string")

/-- Structural decode of an optional string field of an object: an absent
key leaves the zero value (empty string). -/
def decodeStringField (fields : List (String × JVal)) (key : String) :
    Except GoErr String :=
  match fields.lookup key with
  | none => .ok ""
  | some v => decodeStringVal v

/-- Decode of the external `tenant` field. Modelled from the spec: the
tenant structure is treated as external and "its fields are not reinterpreted
here", so the raw value is carried unchanged; an absent key leaves the zero
value. -/
def decodeTenantField (fields : List (String × JVal)) : Except GoErr Tenant :=
  match fields.lookup "tenant" with
  | none => .ok zeroTenant
  | some v => .ok ⟨v⟩

/-- The inner anonymous `token` struct of the response shape expected by
`ExtractToken` (`results.go:86-90`): `expires`, `id`, and the external
tenant record. -/
structure TokenSection where
  Expires : String
  ID : String
  Tenant : Tenant

/-- The zero value of the anonymous `token` struct. -/
def zeroTokenSection : TokenSection := ⟨"", "", zeroTenant⟩

/-- Structural decode of the anonymous `token` struct from a value: field
keys `expires`, `id`, `tenant`; unknown sibling keys are ignored; a nil value
leaves the zero struct; a non-map value is a structural decode error. -/
def decodeTokenSection (v : JVal) : Except GoErr TokenSection :=
  match v with
  | .null => .ok zeroTokenSection
  | .obj fields => do
    let expires ← decodeStringField fields "expires"
    let id ← decodeStringField fields "id"
    let tenant ← decodeTenantField fields
    .ok ⟨expires, id, tenant⟩
  | _ => .error (.decodeError "expected a map for token")

/-- Structural decode of the anonymous `access` struct of `ExtractToken`
(`results.go:85-91`): the single field keyed `token`; an absent key leaves
the zero struct. -/
def decodeTokenAccess (v : JVal) : Except GoErr TokenSection :=
  match v with
  | .null => .ok zeroTokenSection
  | .obj fields =>
    match fields.lookup "token" with
    | none => .ok zeroTokenSection
    | some tv => decodeTokenSection tv
  | _ => .error (.decodeError "expected a map for access")

/-- Embedding of `mapstructure.Decode(result.Resp, &response)` at
`results.go:94` for the token response shape: the top-level field keyed
`access`; the result is `response.Access.Token`. -/
def decodeTokenResponse (v : JVal) : Except GoErr TokenSection :=
  match v with
  | .null => .ok zeroTokenSection
  | .obj fields =>
    match fields.lookup "access" with
    | none => .ok zeroTokenSection
    | some av => decodeTokenAccess av
  | _ => .error (.decodeError "expected a map for response")

/-- Function `ExtractToken` from `results.go:79-109`: pass through a
captured error, otherwise structurally decode the payload, then parse
`expires` under the fixed layout, and only on success of both steps build
the `Token` with `ExpiresAt` the parsed instant and `ID`, `Tenant` copied
verbatim. -/
def ExtractToken (result : CreateResult) : Except GoErr Token :=
  match result.Err with
  | some e => .error e
  | none => do
    let response ← decodeTokenResponse result.Resp
    let expiresTs ← timeParse response.Expires
    .ok { ID := response.ID, ExpiresAt := expiresTs, Tenant := response.Tenant }

/-- Structural decode of one `Endpoint` record (`results.go:37-46`): eight
independently optional string fields, keyed by their field tags. -/
def decodeEndpoint (v : JVal) : Except GoErr Endpoint :=
  match v with
  | .null => .ok ⟨"", "", "", "", "", "", "", ""⟩
  | .obj fields => do
    let tenantID ← decodeStringField fields "tenantId"
    let publicURL ← decodeStringField fields "publicURL"
    let internalURL ← decodeStringField fields "internalURL"
    let adminURL ← decodeStringField fields "adminURL"
    let region ← decodeStringField fields "region"
    let versionID ← decodeStringField fields "versionId"
    let versionInfo ← decodeStringField fields "versionInfo"
    let versionList ← decodeStringField fields "versionList"
    .ok ⟨tenantID, publicURL, internalURL, adminURL, region, versionID, versionInfo, versionList⟩
  | _ => .error (.decodeError "expected a map for endpoint")

/-- Structural decode of the `endpoints` slice field of a catalog entry: an
absent or nil value leaves the empty slice; a non-array value is a
structural decode error. -/
def decodeEndpointsField (fields : List (String × JVal)) :
    Except GoErr (List Endpoint) :=
  match fields.lookup "endpoints" with
  | none => .ok []
  | some .null => .ok []
  | some (.arr items) => items.mapM decodeEndpoint
  | some _ => .error (.decodeError "expected an array for endpoints")

/-- Structural decode of one `CatalogEntry` record (`results.go:54-65`):
`name`, `type` strings and the `endpoints` slice. -/
def decodeCatalogEntry (v : JVal) : Except GoErr CatalogEntry :=
  match v with
  | .null => .ok ⟨"", "", []⟩
  | .obj fields => do
    let name ← decodeStringField fields "name"
    let typ ← decodeStringField fields "type"
    let endpoints ← decodeEndpointsField fields
    .ok ⟨name, typ, endpoints⟩
  | _ => .error (.decodeError "expected a map for catalog entry")

/-- Structural decode of the `serviceCatalog` slice value: a nil value
leaves the empty slice; a non-array value is a structural decode error. -/
def decodeEntriesVal (v : JVal) : Except GoErr (List CatalogEntry) :=
  match v with
  | .null => .ok []
  | .arr items => items.mapM decodeCatalogEntry
  | _ => .error (.decodeError "expected an array for serviceCatalog")

/-- Structural decode of the anonymous `access` struct of
`ExtractServiceCatalog` (`results.go:118-120`): the single slice field keyed
`serviceCatalog`; an absent key leaves the empty slice. -/
def decodeCatalogAccess (v : JVal) : Except GoErr (List CatalogEntry) :=
  match v with
  | .null => .ok []
  | .obj fields =>
    match fields.lookup "serviceCatalog" with
    | none => .ok []
    | some sv => decodeEntriesVal sv
  | _ => .error (.decodeError "expected a map for access")

/-- Embedding of `mapstructure.Decode(result.Resp, &response)` at
`results.go:123` for the catalog response shape: the top-level field keyed
`access`; the result is `response.Access.Entries`. -/
def decodeCatalogResponse (v : JVal) : Except GoErr (List CatalogEntry) :=
  match v with
  | .null => .ok []
  | .obj fields =>
    match fields.lookup "access" with
    | none => .ok []
    | some av => decodeCatalogAccess av
  | _ => .error (.decodeError "expected a map for response")

/-- Function `ExtractServiceCatalog` from `results.go:112-129`: pass through
a captured error, otherwise structurally decode the payload and wrap the
decoded entries in a `ServiceCatalog`. -/
def ExtractServiceCatalog (result : CreateResult) : Except GoErr ServiceCatalog :=
  match result.Err with
  | some e => .error e
  | none => do
    let entries ← decodeCatalogResponse result.Resp
    .ok ⟨entries⟩

/-- The endpoint-accumulation loop of `LocateEndpointURL`
(`results.go:142-151`): scan `catalog.Entries` in order, keep an entry when
`entry.Type == opts.Type && (opts.Name == "" || entry.Name == opts.Name)`,
and within a kept entry keep each endpoint with
`opts.Region == "" || endpoint.Region == opts.Region`, appending in traversal
order. -/
def matchingEndpoints (catalog : ServiceCatalog) (opts : EndpointOpts) : List Endpoint :=
  catalog.Entries.foldl
    (fun endpoints entry =>
      if entry.«Type» == opts.«Type» && (opts.Name == "" || entry.Name == opts.Name) then
        endpoints ++ entry.Endpoints.filter
          (fun endpoint => opts.Region == "" || endpoint.Region == opts.Region)
      else
        endpoints)
    []

/-- Function `LocateEndpointURL` from `results.go:140-176`: accumulate the
matching endpoints, fail with `ErrEndpointNotFound` on zero matches, with the
ambiguous-endpoint error (carrying the count and the matching set) on more
than one, and otherwise select and normalize the URL named by
`opts.Availability`, failing on an unrecognized availability. -/
def LocateEndpointURL (catalog : ServiceCatalog) (opts : EndpointOpts) :
    Except GoErr String :=
  let endpoints := matchingEndpoints catalog opts
  if endpoints.length = 0 then
    .error .endpointNotFound
  else if endpoints.length > 1 then
    .error (.ambiguousEndpoint endpoints.length endpoints)
  else
    match endpoints with
    | [] => .error .endpointNotFound
    | endpoint :: _ =>
      if opts.Availability = AvailabilityPublic then
        .ok (NormalizeURL endpoint.PublicURL)
      else if opts.Availability = AvailabilityInternal then
        .ok (NormalizeURL endpoint.InternalURL)
      else if opts.Availability = AvailabilityAdmin then
        .ok (NormalizeURL endpoint.AdminURL)
      else
        .error (.unexpectedAvailability opts.Availability)

/-- The resolver's candidate set as the specification words it (§4.2 steps
1-3): filter the entries by Type and optional Name, filter each kept entry's
endpoints by optional Region, and flatten in entry-then-endpoint traversal
order. -/
def specMatches (catalog : ServiceCatalog) (opts : EndpointOpts) : List Endpoint :=
  ((catalog.Entries.filter (fun entry =>
      entry.«Type» == opts.«Type» && (opts.Name == "" || entry.Name == opts.Name))).map
    (fun entry => entry.Endpoints.filter
      (fun endpoint => opts.Region == "" || endpoint.Region == opts.Region))).flatten

/-- A sample endpoint in region `DFW` whose admin URL is unconfigured. -/
def wEndpointDFW : Endpoint :=
  ⟨"", "http://dfw/v1", "http://dfw-int/v1", "", "DFW", "", "", ""⟩

/-- A sample endpoint in region `ORD`. -/
def wEndpointORD : Endpoint :=
  ⟨"", "http://ord/v1", "http://ord-int/v1", "", "ORD", "", "", ""⟩

/-- A sample catalog with two `compute` entries in different regions. -/
def wCatalog : ServiceCatalog :=
  ⟨[⟨"cloudServersOpenStack", "compute", [wEndpointDFW]⟩,
    ⟨"cloudServersOpenStack", "compute", [wEndpointORD]⟩]⟩

/-- A sample payload with a conformant `expires` timestamp. -/
def wGoodPayload : JVal :=
  .obj [("access", .obj [("token", .obj
    [("expires", .str "2024-01-02T03:04:05.678Z"), ("id", .str "aaaaa-bbbbb-ccccc-ddddd")])])]

/-- A sample payload whose `expires` string is malformed. -/
def wBadPayload : JVal :=
  .obj [("access", .obj [("token", .obj [("expires", .str "not-a-date")])])]

/-- A sample payload fields list whose `access.token` record lacks the
`expires` key. -/
def wMissingExpires : List (String × JVal) :=
  [("access", JVal.obj [("token", JVal.obj [("id", JVal.str "tok")])])]

/-- The accumulation loop of `matchingEndpoints` equals the declarative
filter-map-flatten of the same predicates, by induction on the entries with
a generalized accumulator. -/
theorem matchingEndpoints_flatten (catalog : ServiceCatalog) (opts : EndpointOpts) :
    matchingEndpoints catalog opts =
      ((catalog.Entries.filter (fun entry =>
          entry.«Type» == opts.«Type» && (opts.Name == "" || entry.Name == opts.Name))).map
        (fun entry => entry.Endpoints.filter
          (fun endpoint => opts.Region == "" || endpoint.Region == opts.Region))).flatten := by
  have aux : ∀ (entries : List CatalogEntry) (acc : List Endpoint),
      entries.foldl
        (fun endpoints entry =>
          if entry.«Type» == opts.«Type» && (opts.Name == "" || entry.Name == opts.Name) then
            endpoints ++ entry.Endpoints.filter
              (fun endpoint => opts.Region == "" || endpoint.Region == opts.Region)
          else
            endpoints)
        acc =
      acc ++ ((entries.filter (fun entry =>
          entry.«Type» == opts.«Type» && (opts.Name == "" || entry.Name == opts.Name))).map
        (fun entry => entry.Endpoints.filter
          (fun endpoint => opts.Region == "" || endpoint.Region == opts.Region))).flatten := by
    intro entries
    induction entries with
    | nil => intro acc; simp
    | cons e es ih =>
      intro acc
      rw [List.foldl_cons]
      by_cases h : (e.«Type» == opts.«Type» && (opts.Name == "" || e.Name == opts.Name)) = true
      · rw [if_pos h, ih]
        simp only [List.filter_cons, h, if_true, List.map_cons, List.flatten_cons,
          List.append_assoc]
      · rw [if_neg h, ih]
        simp [h]
  exact aux catalog.Entries []

/-- Claim C1: whenever the step 1-3 filtering yields exactly one endpoint and
the query's visibility is one of the three recognized selectors,
`LocateEndpointURL` returns, with no error, the normalization of that
endpoint's URL field corresponding to the visibility (`PublicURL` for
public, `InternalURL` for internal, `AdminURL` for admin). -/
theorem locate_unique_returns_visibility_url (catalog : ServiceCatalog)
    (opts : EndpointOpts) (endpoint : Endpoint)
    (h : matchingEndpoints catalog opts = [endpoint]) :
    (opts.Availability = AvailabilityPublic →
      LocateEndpointURL catalog opts = .ok (NormalizeURL endpoint.PublicURL)) ∧
    (opts.Availability = AvailabilityInternal →
      LocateEndpointURL catalog opts = .ok (NormalizeURL endpoint.InternalURL)) ∧
    (opts.Availability = AvailabilityAdmin →
      LocateEndpointURL catalog opts = .ok (NormalizeURL endpoint.AdminURL)) := by
  refine ⟨fun hv => ?_, fun hv => ?_, fun hv => ?_⟩ <;>
    simp [LocateEndpointURL, h, hv, AvailabilityPublic, AvailabilityInternal, AvailabilityAdmin]

/-- Witness for C1: on the sample catalog, querying type `compute`, region
`DFW`, public visibility returns the normalized `DFW` public URL. -/
theorem locate_unique_returns_visibility_url_witness :
    LocateEndpointURL wCatalog ⟨"compute", "", "DFW", "public"⟩ =
      .ok (NormalizeURL "http://dfw/v1") :=
  (locate_unique_returns_visibility_url wCatalog ⟨"compute", "", "DFW", "public"⟩
    wEndpointDFW rfl).1 rfl

/-- Claim C2: the set of endpoints considered by `LocateEndpointURL` is
exactly the entries with `entry.Type == query.Type` and (empty `query.Name`
or `entry.Name == query.Name`), each contributing its endpoints with (empty
`query.Region` or `endpoint.Region == query.Region`), in entry-then-endpoint
traversal order. -/
theorem matchingEndpoints_eq_specMatches (catalog : ServiceCatalog) (opts : EndpointOpts) :
    matchingEndpoints catalog opts = specMatches catalog opts := by
  rw [matchingEndpoints_flatten]; rfl

/-- Claim C3: when the filtering yields more than one endpoint,
`LocateEndpointURL` fails with an ambiguous-endpoint error reporting the
count and the full matching set, and returns no URL. -/
theorem locate_multiple_ambiguous_endpoint (catalog : ServiceCatalog) (opts : EndpointOpts)
    (h : 1 < (matchingEndpoints catalog opts).length) :
    LocateEndpointURL catalog opts =
      .error (.ambiguousEndpoint (matchingEndpoints catalog opts).length
        (matchingEndpoints catalog opts)) := by
  have h0 : ¬ (matchingEndpoints catalog opts).length = 0 := by omega
  simp [LocateEndpointURL, h0, h]

/-- Witness for C3: on the sample catalog, querying type `compute` with no
region matches the two endpoints and fails with count 2 and the pair. -/
theorem locate_multiple_ambiguous_endpoint_witness :
    LocateEndpointURL wCatalog ⟨"compute", "", "", "public"⟩ =
      .error (.ambiguousEndpoint 2 [wEndpointDFW, wEndpointORD]) :=
  locate_multiple_ambiguous_endpoint wCatalog ⟨"compute", "", "", "public"⟩ (by decide)

/-- Claim C4: when the filtering yields zero endpoints, `LocateEndpointURL`
fails with the endpoint-not-found error and returns no URL; in particular
the filtering yields zero endpoints whenever no entry has the requested
type. -/
theorem locate_zero_endpoint_not_found (catalog : ServiceCatalog) (opts : EndpointOpts) :
    (matchingEndpoints catalog opts = [] →
      LocateEndpointURL catalog opts = .error .endpointNotFound) ∧
    ((∀ entry ∈ catalog.Entries, entry.«Type» ≠ opts.«Type») →
      matchingEndpoints catalog opts = []) := by
  constructor
  · intro h
    simp [LocateEndpointURL, h]
  · intro h
    rw [matchingEndpoints_flatten]
    have hf : catalog.Entries.filter (fun entry =>
        entry.«Type» == opts.«Type» && (opts.Name == "" || entry.Name == opts.Name)) = [] := by
      rw [List.filter_eq_nil_iff]
      intro entry hmem
      simp [h entry hmem]
    rw [hf]
    rfl

/-- Witness for C4: on the sample catalog, querying type `image` matches
nothing and fails with the endpoint-not-found error. -/
theorem locate_zero_endpoint_not_found_witness :
    LocateEndpointURL wCatalog ⟨"image", "", "", "public"⟩ = .error .endpointNotFound ∧
    matchingEndpoints wCatalog ⟨"image", "", "", "public"⟩ = [] :=
  ⟨(locate_zero_endpoint_not_found wCatalog ⟨"image", "", "", "public"⟩).1 rfl,
   (locate_zero_endpoint_not_found wCatalog ⟨"image", "", "", "public"⟩).2 (by decide)⟩

/-- Claim C5: with a visibility that is none of the three recognized
selectors, `LocateEndpointURL` still fails with endpoint-not-found on zero
matches and with the ambiguous-endpoint error on more than one, and only
with exactly one match does it fail with the invalid-visibility error — the
visibility check happens only after a unique endpoint is found. -/
theorem locate_invalid_visibility_last (catalog : ServiceCatalog) (opts : EndpointOpts)
    (hp : opts.Availability ≠ AvailabilityPublic)
    (hi : opts.Availability ≠ AvailabilityInternal)
    (ha : opts.Availability ≠ AvailabilityAdmin) :
    (matchingEndpoints catalog opts = [] →
      LocateEndpointURL catalog opts = .error .endpointNotFound) ∧
    (1 < (matchingEndpoints catalog opts).length →
      LocateEndpointURL catalog opts =
        .error (.ambiguousEndpoint (matchingEndpoints catalog opts).length
          (matchingEndpoints catalog opts))) ∧
    (∀ endpoint, matchingEndpoints catalog opts = [endpoint] →
      LocateEndpointURL catalog opts =
        .error (.unexpectedAvailability opts.Availability)) := by
  refine ⟨fun h => ?_, fun h => ?_, fun endpoint h => ?_⟩
  · simp [LocateEndpointURL, h]
  · have h0 : ¬ (matchingEndpoints catalog opts).length = 0 := by omega
    simp [LocateEndpointURL, h0, h]
  · simp [LocateEndpointURL, h, hp, hi, ha]

/-- Witness for C5: on the sample catalog, a unique match queried with the
unrecognized visibility `bogus` fails with the invalid-visibility error. -/
theorem locate_invalid_visibility_last_witness :
    LocateEndpointURL wCatalog ⟨"compute", "", "DFW", "bogus"⟩ =
      .error (.unexpectedAvailability "bogus") :=
  (locate_invalid_visibility_last wCatalog ⟨"compute", "", "DFW", "bogus"⟩
    (by decide) (by decide) (by decide)).2.2 wEndpointDFW rfl

/-- Claim C6: when the filtering yields exactly one endpoint whose URL field
for the requested visibility is the empty string, `LocateEndpointURL`
returns the empty string with no error. -/
theorem locate_unique_empty_url_empty (catalog : ServiceCatalog) (opts : EndpointOpts)
    (endpoint : Endpoint) (h : matchingEndpoints catalog opts = [endpoint]) :
    (opts.Availability = AvailabilityPublic → endpoint.PublicURL = "" →
      LocateEndpointURL catalog opts = .ok "") ∧
    (opts.Availability = AvailabilityInternal → endpoint.InternalURL = "" →
      LocateEndpointURL catalog opts = .ok "") ∧
    (opts.Availability = AvailabilityAdmin → endpoint.AdminURL = "" →
      LocateEndpointURL catalog opts = .ok "") := by
  refine ⟨fun hv hu => ?_, fun hv hu => ?_, fun hv hu => ?_⟩ <;>
    simp [LocateEndpointURL, h, hv, hu, NormalizeURL,
      AvailabilityPublic, AvailabilityInternal, AvailabilityAdmin]

/-- Witness for C6: on the sample catalog, the unique `DFW` match has an
empty admin URL, and resolving with admin visibility returns the empty
string with no error. -/
theorem locate_unique_empty_url_empty_witness :
    LocateEndpointURL wCatalog ⟨"compute", "", "DFW", "admin"⟩ = .ok "" :=
  (locate_unique_empty_url_empty wCatalog ⟨"compute", "", "DFW", "admin"⟩
    wEndpointDFW rfl).2.2 rfl rfl

/-- Claim C7: for every result wrapper carrying a captured error, both
`ExtractToken` and `ExtractServiceCatalog` fail with that identical error —
for every payload, so no structural decode of the payload is consulted — and
return no token or catalog. -/
theorem extract_captured_error_passthrough (v : JVal) (e : GoErr) :
    ExtractToken ⟨v, some e⟩ = .error e ∧ ExtractServiceCatalog ⟨v, some e⟩ = .error e :=
  ⟨rfl, rfl⟩

/-- Claim C8: for a payload whose structural decode succeeds, `ExtractToken`
fails with the format (parse) error naming the fixed layout and the
`expires` string whenever that string does not parse exactly, and succeeds
with `ExpiresAt` exactly the parsed instant and `ID`, `Tenant` copied
verbatim whenever it does. -/
theorem extract_token_expires_exact_parse (v : JVal) (r : TokenSection)
    (hd : decodeTokenResponse v = .ok r) :
    (parseRFC3339Milli r.Expires = none →
      ExtractToken ⟨v, none⟩ = .error (.timeParseError RFC3339Milli r.Expires)) ∧
    (∀ t, parseRFC3339Milli r.Expires = some t →
      ExtractToken ⟨v, none⟩ = .ok ⟨r.ID, t, r.Tenant⟩) := by
  constructor
  · intro hp
    simp [ExtractToken, hd, timeParse, hp, Except.instMonad, Except.bind]
  · intro t hp
    simp [ExtractToken, hd, timeParse, hp, Except.instMonad, Except.bind]

/-- Witness for C8: the malformed sample payload fails with the parse error
on `not-a-date`, and the conformant sample payload yields the parsed
instant with `ID` copied verbatim. -/
theorem extract_token_expires_exact_parse_witness :
    ExtractToken ⟨wBadPayload, none⟩ = .error (.timeParseError RFC3339Milli "not-a-date") ∧
    ExtractToken ⟨wGoodPayload, none⟩ =
      .ok ⟨"aaaaa-bbbbb-ccccc-ddddd", ⟨2024, 1, 2, 3, 4, 5, 678⟩, zeroTenant⟩ :=
  ⟨(extract_token_expires_exact_parse wBadPayload ⟨"not-a-date", "", zeroTenant⟩ rfl).1 rfl,
   (extract_token_expires_exact_parse wGoodPayload
      ⟨"2024-01-02T03:04:05.678Z", "aaaaa-bbbbb-ccccc-ddddd", zeroTenant⟩ rfl).2
      ⟨2024, 1, 2, 3, 4, 5, 678⟩ rfl⟩

/-- Claim C9: for every object payload in which the `access.serviceCatalog`
key is absent (the `access` key itself absent, or present as an object
without `serviceCatalog`), `ExtractServiceCatalog` succeeds with an empty
entries sequence. -/
theorem extract_catalog_missing_key_empty (m am : List (String × JVal))
    (hcase : m.lookup "access" = none ∨
      (m.lookup "access" = some (JVal.obj am) ∧ am.lookup "serviceCatalog" = none)) :
    ExtractServiceCatalog ⟨JVal.obj m, none⟩ = .ok ⟨[]⟩ := by
  rcases hcase with h | ⟨h1, h2⟩
  · simp [ExtractServiceCatalog, decodeCatalogResponse, h, Except.instMonad, Except.bind]
  · simp [ExtractServiceCatalog, decodeCatalogResponse, decodeCatalogAccess, h1, h2,
      Except.instMonad, Except.bind]

/-- Witness for C9: a payload whose `access` object has only a `token` key
decodes to the empty catalog with no error. -/
theorem extract_catalog_missing_key_empty_witness :
    ExtractServiceCatalog ⟨JVal.obj [("access", JVal.obj [("token", JVal.null)])], none⟩ =
      .ok ⟨[]⟩ :=
  extract_catalog_missing_key_empty [("access", JVal.obj [("token", JVal.null)])]
    [("token", JVal.null)] (Or.inr ⟨rfl, rfl⟩)

/-- Claim C10: for an object payload whose `access` object lacks the `token`
key, or whose `access.token` object lacks the `expires` key and is otherwise
well formed, the structural decode of `ExtractToken` succeeds with zero
values (`expires` decodes to the empty string) and the operation fails at
the timestamp-parse step on the empty string — a format error, not a
structural decode error. -/
theorem extract_token_missing_expires_format_error (m am : List (String × JVal))
    (ha : m.lookup "access" = some (JVal.obj am))
    (hcase : am.lookup "token" = none ∨
      (∃ tm idv, am.lookup "token" = some (JVal.obj tm) ∧ tm.lookup "expires" = none ∧
        decodeStringField tm "id" = .ok idv)) :
    (∃ r, decodeTokenResponse (JVal.obj m) = .ok r ∧ r.Expires = "") ∧
    ExtractToken ⟨JVal.obj m, none⟩ = .error (.timeParseError RFC3339Milli "") := by
  have hp : parseRFC3339Milli "" = none := rfl
  rcases hcase with h | ⟨tm, idv, h1, h2, h3⟩
  · have hd : decodeTokenResponse (JVal.obj m) = .ok zeroTokenSection := by
      simp [decodeTokenResponse, decodeTokenAccess, ha, h]
    exact ⟨⟨zeroTokenSection, hd, rfl⟩,
      by simp [ExtractToken, hd, timeParse, hp, zeroTokenSection, Except.instMonad, Except.bind]⟩
  · obtain ⟨tn, htn⟩ : ∃ tn, decodeTenantField tm = .ok tn := by
      cases htl : tm.lookup "tenant" <;> simp [decodeTenantField, htl]
    have hexp : decodeStringField tm "expires" = .ok "" := by simp [decodeStringField, h2]
    have hd : decodeTokenResponse (JVal.obj m) = .ok ⟨"", idv, tn⟩ := by
      simp [decodeTokenResponse, ha, decodeTokenAccess, h1, decodeTokenSection, hexp, h3, htn,
        Except.instMonad, Except.bind]
    exact ⟨⟨⟨"", idv, tn⟩, hd, rfl⟩,
      by simp [ExtractToken, hd, timeParse, hp, Except.instMonad, Except.bind]⟩

/-- Witness for C10: the sample payload whose `access.token` has only an
`id` key fails with the parse error on the empty `expires` string. -/
theorem extract_token_missing_expires_format_error_witness :
    ExtractToken ⟨JVal.obj wMissingExpires, none⟩ =
      .error (.timeParseError RFC3339Milli "") :=
  (extract_token_missing_expires_format_error wMissingExpires
    [("token", JVal.obj [("id", JVal.str "tok")])] rfl
    (Or.inr ⟨[("id", JVal.str "tok")], "tok", rfl, rfl, rfl⟩)).2

end Tokens
